import Mathlib

/-!
# Verification of `torch/_dynamo/variables/dicts.py`

A shallow embedding of the dictionary variable trackers of the tracing
JIT compiler: `ConstDictVariable`, `DefaultDictVariable`,
`DataClassVariable.create` and `PythonSysModulesVariable`, together with
the transaction-level operations they invoke (`replace_all`,
`store_global_weakref`, factory invocation).

Modelling conventions:
* Python object identity is modelled by a numeric `id` field; the tracer
  state `Tx` carries a counter `nextId` from which every freshly created
  object (clone, `MutableLocal` token, factory result) draws.  The
  well-formedness hypothesis `v.id < st.nextId` states that `v` was
  created before the current step.
* Python `set`s of mutable-local tokens and of guards are modelled as
  lists read up to membership.
* `collections.OrderedDict` is modelled as an association list in
  insertion order; `dict.update`/item assignment keep the position of an
  existing key and append new keys.
* Keys and non-mapping values are modelled by the flat type `VT`
  (a generic `VariableTracker`); a mapping-typed argument appears through
  the `Arg.dict` constructor (used by the `update` branch).  Nested
  mapping-valued entries are outside the modelled fragment.
* Fallible Python code is modelled in `Except DynErr`: `unimplemented`
  (the trace-abort signal from `..exc`), Python `KeyError`, `TypeError`
  (e.g. a call with a missing positional argument), `AssertionError`,
  `IndexError`, and `NotImplementedError`
  (raised by `as_python_constant` on non-constant variables).
-/

/-- Python literal constants appearing as dict keys / constant values. -/
inductive PyConst where
  | int : Int → PyConst
  | str : String → PyConst
  | bool : Bool → PyConst
  | none : PyConst
  | dtype : Nat → PyConst
  deriving DecidableEq, Repr

/-- The python type of a constant, as far as `is_valid_key` inspects it
(`key.python_type() is torch.dtype`). -/
inductive PyType where
  | dtype : PyType
  | other : PyType
  deriving DecidableEq, Repr

/-- A normalized dict key as produced by `ConstDictVariable.get_key`:
either a python constant or the stable identity of an `nn.Module`
(`tx.output.nn_modules[arg.module_key]`). -/
inductive NKey where
  | const : PyConst → NKey
  | module : Nat → NKey
  deriving DecidableEq, Repr

/-- A guard predicate.  `dictContains key invert` is
`GuardBuilder.DICT_CONTAINS(key=k, invert=not has_key)`; `base n` stands
for any other accumulated guard. -/
inductive Guard where
  | dictContains : NKey → Bool → Guard
  | base : Nat → Guard
  deriving DecidableEq, Repr

/-- Errors/signals raised by the modelled code. -/
inductive DynErr where
  | unimplemented : String → DynErr
  | keyError : DynErr
  | typeError : DynErr
  | assertionError : DynErr
  | indexError : DynErr
  | notImplementedError : DynErr
  deriving DecidableEq, Repr

/-- Tests for the `unimplemented` trace-abort signal. -/
def DynErr.isUnimplemented : DynErr → Bool
  | .unimplemented _ => true
  | _ => false

/-- The structural kind of a generic (non-mapping) `VariableTracker`, as
far as `get_key` / `is_valid_key` distinguish variables:
`TensorVariable` (with its optional `specialized_value`),
`ConstantVariable` (value and python type), `NNModuleVariable`
(its `module_key`), or any other variable, carrying the result of
`as_python_constant` when it is a python constant. -/
inductive VTKind where
  | tensor : Option PyConst → VTKind
  | constant : PyConst → PyType → VTKind
  | nnModule : Nat → VTKind
  | other : Option PyConst → VTKind
  deriving DecidableEq, Repr

/-- Modelled from the spec: `VariableTracker.is_python_constant()` of
the base class (outside `src/`) is true exactly when
`as_python_constant()` succeeds (spec section 4.1, the boolean
projection contract). -/
def VTKind.is_python_constant : VTKind → Bool
  | .tensor _ => false
  | .constant _ _ => true
  | .nnModule _ => false
  | .other c => c.isSome

/-- Modelled from the spec: `VariableTracker.as_python_constant()` of
the base class (outside `src/`), `none` when the call raises
`NotImplementedError`. -/
def VTKind.as_python_constant : VTKind → Option PyConst
  | .tensor _ => Option.none
  | .constant c _ => some c
  | .nnModule _ => Option.none
  | .other c => c

/-- A generic (non-mapping) `VariableTracker`: identity, structural
kind, optional `mutable_local` token, the `recursively_contains` token
set, and accumulated guards. -/
structure VT where
  id : Nat
  kind : VTKind
  mutable_local : Option Nat
  recursively_contains : List Nat
  guards : List Guard
  deriving DecidableEq, Repr

/-- Embeds `isinstance(v, TensorVariable)`. -/
def VT.isTensor (v : VT) : Bool :=
  match v.kind with
  | .tensor _ => true
  | _ => false

/-- Modelled from the spec: `VariableTracker.add_options` /
`add_guards` of the base class (outside `src/`) merge extra guards —
every derived variable carries the union of the guards of its
contributors (guard ledger, spec section 4.2); the clone keeps the
payload and identity of the variable it decorates. -/
def VT.add_guards (v : VT) (gs : List Guard) : VT :=
  { v with guards := v.guards ++ gs }

/-- Which mapping host class a dict variable stands for (`user_cls`). -/
inductive DictCls where
  | dict : DictCls
  | orderedDict : DictCls
  | defaultdict : DictCls
  deriving DecidableEq, Repr

/-- Embeds `ConstDictVariable` (and, through the optional `default_factory`
field, its subclass `DefaultDictVariable`): ordered `items`, the host
class `user_cls`, the mutability token, the `recursively_contains`
token set and the accumulated guards.  A `default_factory` value is a
template of the variable the factory call produces (the factory classes
live outside this file). -/
structure ConstDictVariable where
  id : Nat
  items : List (NKey × VT)
  user_cls : DictCls
  mutable_local : Option Nat
  recursively_contains : List Nat
  guards : List Guard
  default_factory : Option VT
  deriving DecidableEq, Repr

/-- The tracer state visible to this file: the fresh-identity counter,
a count of factory invocations, the `replace_all` substitution record,
the two key registries (`store_global_weakref`, `store_dict_key`), the
`tx.output.nn_modules` registry and the live `sys.modules` table. -/
structure Tx where
  nextId : Nat
  factoryCalls : Nat
  substitutions : List (Nat × ConstDictVariable)
  globalWeakrefs : List NKey
  dictKeys : List NKey
  nnModules : List (Nat × Nat)
  sysModules : List (NKey × Nat)
  deriving DecidableEq, Repr

/-- Embeds `tx.store_global_weakref(global_key_name(k), k)`. -/
def Tx.store_global_weakref (st : Tx) (k : NKey) : Tx :=
  { st with globalWeakrefs := k :: st.globalWeakrefs }

/-- Embeds `tx.store_dict_key(global_key_name(k), k)`. -/
def Tx.store_dict_key (st : Tx) (k : NKey) : Tx :=
  { st with dictKeys := k :: st.dictKeys }

/-- Modelled from the spec: `tx.replace_all(old, new)` (the tracer,
outside `src/`) registers `new` as the replacement of `old` throughout
live tracer state and returns `new` (spec section 2, section 4.3
"replace all references"). -/
def Tx.replace_all (st : Tx) (old new : ConstDictVariable) :
    ConstDictVariable × Tx :=
  (new, { st with substitutions := (old.id, new) :: st.substitutions })

/-- Modelled from the spec: `MutableLocal()` (from `variables/base.py`,
outside `src/`) allocates a fresh mutability token. -/
def Tx.freshToken (st : Tx) : Nat × Tx :=
  (st.nextId, { st with nextId := st.nextId + 1 })

/-- Modelled from the spec: `self.default_factory.call_function(tx, [], ...)` — the factory invocation synthesizes a brand-new value
variable via a symbolic call (spec section 4.4); the factory classes
are outside `src/`.  The template `f` fixes the payload; identity is
fresh. -/
def Tx.callFactory (st : Tx) (f : VT) : VT × Tx :=
  ({ f with id := st.nextId },
   { st with nextId := st.nextId + 1, factoryCalls := st.factoryCalls + 1 })

/-- Embeds `ConstDictVariable.get_key(tx, arg)` (lines 242-249): a specialized
tensor yields its specialized value, an `NNModuleVariable` yields the
module registered under its `module_key`, anything else goes through
`as_python_constant` (which fails on non-constants).  The module
registry is modelled as total (every `module_key` of a live
`NNModuleVariable` is registered by construction, outside this file). -/
def ConstDictVariable.get_key (st : Tx) (arg : VT) : Option NKey :=
  match arg.kind with
  | .tensor (some sv) => some (.const sv)
  | .nnModule m => some (.module ((st.nnModules.lookup m).getD 0))
  | k => (VTKind.as_python_constant k).map .const

/-- Embeds `ConstDictVariable.is_valid_key(key)` (lines 251-260), mirroring the
source's `or`-chain. -/
def ConstDictVariable.is_valid_key (key : VT) : Bool :=
  key.kind.is_python_constant
  || (match key.kind with | .tensor sv => sv.isSome | _ => false)
  || (match key.kind with | .constant _ ty => ty = PyType.dtype | _ => false)
  || (match key.kind with | .nnModule _ => true | _ => false)

/-- Embeds `is_valid_global_ref_key(key)` (lines 273-277): the key's runtime
value is identity-sensitive (a tensor or an `nn.Module` or a tuple);
on normalized keys this holds exactly of module-identity keys (tuple
keys are outside the modelled key grammar). -/
def is_valid_global_ref_key (key : NKey) : Bool :=
  match key with
  | .module _ => true
  | .const _ => false

/-- Ordered-dict item assignment `d[k] = v`: an existing key keeps its
position and gets the new value, a new key is appended. -/
def odictInsert (l : List (NKey × VT)) (k : NKey) (v : VT) :
    List (NKey × VT) :=
  if (l.lookup k).isSome then
    l.map (fun p => if p.1 = k then (k, v) else p)
  else
    l ++ [(k, v)]

/-- Ordered-dict `d.pop(k)`'s residual dict: `d` without key `k`. -/
def odictRemove (l : List (NKey × VT)) (k : NKey) : List (NKey × VT) :=
  l.filter (fun p => ¬ p.1 = k)

/-- Embeds `d.update(other)`: item assignment for each entry of `other` in
order. -/
def odictUpdate (l other : List (NKey × VT)) : List (NKey × VT) :=
  other.foldl (fun acc p => odictInsert acc p.1 p.2) l

/-- Modelled from the spec: a clone receiving
`recursively_contains=None` (the `pop` branch) recomputes the
`aggregateContains` set as the mutable-local identities reachable
through the variable's values (spec section 3); this recomputation
lives in the `VariableTracker` base class outside `src/`. -/
def recompute_rc (items : List (NKey × VT)) : List Nat :=
  (items.map (fun p => p.2.mutable_local.toList ++ p.2.recursively_contains)).flatten

/-- An argument to `call_method`: a generic variable or a mapping
variable (the latter only reaches the `update` branch). -/
inductive Arg where
  | vt : VT → Arg
  | dict : ConstDictVariable → Arg
  deriving DecidableEq, Repr

/-- Guards of an argument. -/
def Arg.guards : Arg → List Guard
  | .vt v => v.guards
  | .dict d => d.guards

/-- Embeds `VariableTracker.propagate(self, args, kwargs.values())["guards"]`:
the union of the guards of all contributors. -/
def optsOf (self : ConstDictVariable) (args : List Arg)
    (kwargs : List (String × Arg)) : List Guard :=
  self.guards ++ (args.map Arg.guards).flatten
    ++ (kwargs.map (fun p => p.2.guards)).flatten

/-- Embeds `ConstDictVariable.modifed` (lines 230-234) — "a copy of self with
different items": a clone with fresh identity, the given items, the
given `recursively_contains` (recomputed from the items when `None`
was passed) and the propagated guards, to which `__init__` (line 28)
adds the guards of the item values. -/
def ConstDictVariable.modifed (st : Tx) (self : ConstDictVariable)
    (items : List (NKey × VT)) (rc : Option (List Nat))
    (options : List Guard) : ConstDictVariable × Tx :=
  ({ self with
      id := st.nextId
      items := items
      recursively_contains := rc.getD (recompute_rc items)
      guards := options ++ (items.map (fun p => p.2.guards)).flatten },
   { st with nextId := st.nextId + 1 })

/-- Embeds `ConstDictVariable.getitem_const(tx, arg)` (lines 70-71):
`self.items[get_key(tx, arg)].add_options(self, arg)`; raises through
`get_key` on non-normalizable keys and `KeyError` on an absent key. -/
def ConstDictVariable.getitem_const (st : Tx) (self : ConstDictVariable)
    (arg : VT) : Except DynErr VT :=
  match ConstDictVariable.get_key st arg with
  | Option.none => .error .notImplementedError
  | some k =>
    match self.items.lookup k with
    | Option.none => .error .keyError
    | some v => .ok (v.add_guards (self.guards ++ arg.guards))

/-- The call `ConstDictVariable.get_key(x)` written with a single
argument, as at line 198 (the `__contains__` arm of
`ConstDictVariable.call_method`) and line 667
(`PythonSysModulesVariable._contains_helper`): `get_key` is a
classmethod whose signature is `(cls, tx, arg)`, so the one-argument
call binds `tx := x` and leaves the positional `arg` missing; Python
raises `TypeError` before the method body runs. -/
def get_key_missing_arg (_x : VT) : Except DynErr NKey :=
  .error .typeError

/-- Embeds `is_valid_key(args[0])` guarded by `args` being nonempty, as in the
branch conditions `args and ConstDictVariable.is_valid_key(args[0])`.
A mapping variable in key position is outside the modelled key
grammar. -/
def firstArgValidKey (args : List Arg) : Bool :=
  match args with
  | .vt v :: _ => ConstDictVariable.is_valid_key v
  | _ => false

/-- Embeds `ConstDictVariable.get_key(tx, args[0]) not in self.items`,
evaluated only after `is_valid_key(args[0])` held (so `get_key`
succeeds). -/
def firstArgKeyAbsent (st : Tx) (self : ConstDictVariable)
    (args : List Arg) : Bool :=
  match args with
  | .vt v :: _ =>
    match ConstDictVariable.get_key st v with
    | some k => (self.items.lookup k).isNone
    | Option.none => false
  | _ => false

/-- Embeds `ConstDictVariable.get_key(tx, args[0]) in self.items`. -/
def firstArgKeyPresent (st : Tx) (self : ConstDictVariable)
    (args : List Arg) : Bool :=
  match args with
  | .vt v :: _ =>
    match ConstDictVariable.get_key st v with
    | some k => (self.items.lookup k).isSome
    | Option.none => false
  | _ => false

/-- Result of a dict-variable method call: a generic variable, a
mapping variable, a fresh constant (with its guards), or the
items / keys / values projections (tuple-of-pairs, key set, value
tuple; the key variables re-synthesized by `_key_to_var` are
represented by their normalized keys). -/
inductive Res where
  | vt : VT → Res
  | dict : ConstDictVariable → Res
  | constant : PyConst → List Guard → Res
  | pairs : List (NKey × VT) → Res
  | keySet : List NKey → Res
  | valueTuple : List VT → Res
  deriving DecidableEq, Repr

/-- Embeds `arg.add_options(options)` on an argument, as a call result. -/
def Res.ofArg (a : Arg) (gs : List Guard) : Res :=
  match a with
  | .vt v => .vt (v.add_guards gs)
  | .dict d => .dict { d with guards := d.guards ++ gs }

/-- Modelled from the spec: the `VariableTracker.call_method` base-class
fallback (`super().call_method(...)`, line 228) raises the generic
unsupported-operation signal for every method this subsystem does not
model (spec section 4.3: "unsupported names fall through to a generic
unsupported-operation signal"). -/
def callMethodFallback (name : String) : Except DynErr (Res × Tx) :=
  .error (.unimplemented ("call_method " ++ name))

/-- Embeds `ConstDictVariable.call_method` (lines 73-228).  The source's
`elif` chain is mirrored as a match on the method name with the
branch conditions, in source order, inside each arm. -/
def ConstDictVariable.call_method (st : Tx) (self : ConstDictVariable)
    (name : String) (args : List Arg) (kwargs : List (String × Arg)) :
    Except DynErr (Res × Tx) :=
  let options := optsOf self args kwargs
  let val := self.items
  match name with
  | "__getitem__" =>
    match args with
    | .vt a :: _ =>
      (ConstDictVariable.getitem_const st self a).map (fun v => (.vt v, st))
    | .dict _ :: _ => .error .notImplementedError
    | [] => .error .indexError
  | "items" =>
    if args.isEmpty && kwargs.isEmpty then .ok (.pairs val, st)
    else .error .assertionError
  | "keys" =>
    if args.isEmpty && kwargs.isEmpty then .ok (.keySet (val.map (·.1)), st)
    else .error .assertionError
  | "values" =>
    if args.isEmpty && kwargs.isEmpty then
      .ok (.valueTuple (val.map (·.2)), st)
    else .error .assertionError
  | "__len__" =>
    if args.isEmpty && kwargs.isEmpty then
      .ok (.constant (.int (val.length : Int)) options, st)
    else .error .assertionError
  | "__setitem__" =>
    if firstArgValidKey args && self.mutable_local.isSome then
      -- lines 128-151: the copy-on-write insertion on a mutable dict
      if kwargs.isEmpty && args.length = 2 then
        match args with
        | [.vt k0, .vt x] =>
          (match ConstDictVariable.get_key st k0 with
           | Option.none => .error .notImplementedError
           | some k =>
             let st1 := if is_valid_global_ref_key k then
                 st.store_global_weakref k else st
             let newval := odictInsert val k x
             let new_rc := self.recursively_contains
                 ++ x.recursively_contains ++ x.mutable_local.toList
             let m := ConstDictVariable.modifed st1 self newval
                 (some new_rc) options
             let r := Tx.replace_all m.2 self m.1
             .ok (.dict r.1, r.2))
        | [.vt _, .dict _] => .error .notImplementedError
        | _ => .error .typeError
      else .error .assertionError
    else if firstArgValidKey args then
      -- lines 206-225: `__setitem__` on a dict without a mutability
      -- token first installs a fresh `MutableLocal` on the existing
      -- instance (`self.mutable_local = MutableLocal()`), then runs
      -- the same copy-on-write insertion (with `store_dict_key`).
      let tk := Tx.freshToken st
      let self1 := { self with mutable_local := some tk.1 }
      if kwargs.isEmpty && args.length = 2 then
        match args with
        | [.vt k0, .vt x] =>
          (match ConstDictVariable.get_key tk.2 k0 with
           | Option.none => .error .notImplementedError
           | some k =>
             let st1 := if is_valid_global_ref_key k then
                 (tk.2).store_dict_key k else tk.2
             let newval := odictInsert val k x
             let new_rc := self1.recursively_contains
                 ++ x.recursively_contains ++ x.mutable_local.toList
             let m := ConstDictVariable.modifed st1 self1 newval
                 (some new_rc) options
             let r := Tx.replace_all m.2 self1 m.1
             .ok (.dict r.1, r.2))
        | [.vt _, .dict _] => .error .notImplementedError
        | _ => .error .typeError
      else .error .assertionError
    else callMethodFallback name
  | "pop" =>
    if firstArgValidKey args && firstArgKeyAbsent st self args
        && args.length = 2 then
      -- lines 152-160: missing item, return the default value
      match args with
      | [_, a1] => .ok (Res.ofArg a1 options, st)
      | _ => .error .indexError
    else if firstArgValidKey args && self.mutable_local.isSome then
      -- lines 161-170
      match args with
      | .vt k0 :: _ =>
        (match ConstDictVariable.get_key st k0 with
         | Option.none => .error .notImplementedError
         | some k =>
           match val.lookup k with
           | Option.none => .error .keyError
           | some result =>
             let newval := odictRemove val k
             let m := ConstDictVariable.modifed st self newval
                 Option.none options
             let r := Tx.replace_all m.2 self m.1
             .ok (.vt (result.add_guards options), r.2))
      | _ => callMethodFallback name
    else callMethodFallback name
  | "get" =>
    if firstArgValidKey args && firstArgKeyAbsent st self args
        && args.length = 2 then
      -- lines 152-160: missing item, return the default value
      match args with
      | [_, a1] => .ok (Res.ofArg a1 options, st)
      | _ => .error .indexError
    else if firstArgValidKey args && firstArgKeyPresent st self args then
      -- lines 186-193
      match args with
      | .vt k0 :: _ =>
        (match ConstDictVariable.get_key st k0 with
         | Option.none => .error .notImplementedError
         | some k =>
           match val.lookup k with
           | Option.none => .error .keyError
           | some result => .ok (.vt (result.add_guards options), st))
      | _ => callMethodFallback name
    else callMethodFallback name
  | "__getattr__" =>
    if firstArgValidKey args && firstArgKeyPresent st self args then
      -- lines 186-193
      match args with
      | .vt k0 :: _ =>
        (match ConstDictVariable.get_key st k0 with
         | Option.none => .error .notImplementedError
         | some k =>
           match val.lookup k with
           | Option.none => .error .keyError
           | some result => .ok (.vt (result.add_guards options), st))
      | _ => callMethodFallback name
    else callMethodFallback name
  | "update" =>
    -- lines 171-185
    match args with
    | .dict other :: _ =>
      if self.mutable_local.isSome then
        let newval := odictUpdate val other.items
        let new_rc := self.recursively_contains
            ++ other.recursively_contains
        let m := ConstDictVariable.modifed st self newval
            (some new_rc) options
        let r := Tx.replace_all m.2 self m.1
        .ok (.dict r.1, r.2)
      else callMethodFallback name
    | _ => callMethodFallback name
  | "__contains__" =>
    if firstArgValidKey args then
      -- lines 194-199: `ConstDictVariable.get_key(args[0])` is called
      -- without its `tx` argument, so this arm raises `TypeError`.
      match args with
      | .vt a :: _ =>
        (get_key_missing_arg a).map (fun k =>
          (.constant (.bool ((val.lookup k).isSome)) options, st))
      | _ => callMethodFallback name
    else
      -- lines 200-205
      .error (.unimplemented "NYI - __contains__")
  | _ => callMethodFallback name

/-- Embeds `DefaultDictVariable.call_method` (lines 300-333): overrides
`__getitem__` (base-case hit, `KeyError` when no factory is configured,
factory synthesis plus copy-on-write insertion on a miss); every other
method defers to `ConstDictVariable.call_method`. -/
def DefaultDictVariable.call_method (st : Tx) (self : ConstDictVariable)
    (name : String) (args : List Arg) (kwargs : List (String × Arg)) :
    Except DynErr (Res × Tx) :=
  let options := optsOf self args kwargs
  match name with
  | "__getitem__" =>
    match args with
    | .vt a :: _ =>
      (match ConstDictVariable.get_key st a with
       | Option.none => .error .notImplementedError
       | some k =>
         if (self.items.lookup k).isSome then
           (ConstDictVariable.getitem_const st self a).map
             (fun v => (.vt v, st))
         else
           match self.default_factory with
           | Option.none => .error .keyError
           | some f =>
             let st1 := if is_valid_global_ref_key k then
                 st.store_global_weakref k else st
             let dv := Tx.callFactory st1 f
             let new_val := odictInsert self.items k dv.1
             let new_rc := self.recursively_contains
                 ++ (dv.1).recursively_contains
                 ++ (dv.1).mutable_local.toList
             let m := ConstDictVariable.modifed dv.2 self new_val
                 (some new_rc) options
             let r := Tx.replace_all m.2 self m.1
             .ok (.vt dv.1, r.2))
    | .dict _ :: _ => .error .notImplementedError
    | [] => .error .indexError
  | _ => ConstDictVariable.call_method st self name args kwargs

/-- A value bound to a dataclass field by
`inspect.signature(user_cls).bind(...)`: either an already-wrapped
variable or a raw host value (for `ModelOutput` fields, the `None`
default). -/
inductive BoundVal where
  | var : VT → BoundVal
  | raw : PyConst → BoundVal
  deriving DecidableEq, Repr

/-- Embeds `DataClassVariable.include_none` (line 346): `ModelOutput()`
excludes `None` fields. -/
def DataClassVariable.include_none : Bool := false

/-- Embeds `set(bound.arguments.keys()) == set(keys)` (line 378). -/
def sameKeySet (fields : List String)
    (bound : List (String × BoundVal)) : Bool :=
  fields.all (fun k => (bound.lookup k).isSome)
    && bound.all (fun p => fields.contains p.1)

/-- The `items` accumulation loop of `DataClassVariable.create`
(lines 379-389): walk the schema fields in order; a `VariableTracker`
value is kept; a raw value is asserted to be `None` and dropped under
the exclude-absent policy (`include_none = False`), or kept as a
constant variable when `include_none` holds. -/
def DataClassVariable.buildItems (fields : List String)
    (bound : List (String × BoundVal)) :
    Except DynErr (List (String × VT)) :=
  fields.foldlM (fun acc key =>
    match bound.lookup key with
    | Option.none => .error .keyError
    | some (.var v) => .ok (acc ++ [(key, v)])
    | some (.raw c) =>
      if DataClassVariable.include_none then
        .ok (acc ++ [(key,
          { id := 0, kind := .constant c .other, mutable_local := Option.none,
            recursively_contains := [], guards := [] })])
      else if c = PyConst.none then .ok acc
      else .error .assertionError) []

/-- Embeds `DataClassVariable.create` (lines 370-395): bind the call arguments
against the schema (the exact-cover assert of line 378), accumulate
`items`, and flag the single-non-tensor-field edge case — note that the
check reads `items[keys[0]]`, the *first schema field*, which raises
`KeyError` when the single bound field is a later field.  The resulting
record variable is represented by its `items`. -/
def DataClassVariable.create (fields : List String)
    (bound : List (String × BoundVal)) :
    Except DynErr (List (String × VT)) := do
  if ¬ sameKeySet fields bound then throw .assertionError
  let items ← DataClassVariable.buildItems fields bound
  if items.length = 1 then
    match fields with
    | [] => throw .indexError
    | k0 :: _ =>
      match items.lookup k0 with
      | Option.none => throw .keyError
      | some v =>
        if ¬ v.isTensor then
          throw (.unimplemented "DataClassVariable iterator constructor")
        else
          pure items
  else
    pure items

/-- Embeds `PythonSysModulesVariable` (lines 630-711): no items snapshot; the
live table is `Tx.sysModules`. -/
structure PythonSysModulesVariable where
  id : Nat
  guards : List Guard
  deriving DecidableEq, Repr

/-- Embeds `PythonSysModulesVariable._contains_helper` (lines 666-673):
`k = ConstDictVariable.get_key(key)` — the one-argument call of the
`(cls, tx, arg)` classmethod, so the helper raises `TypeError`; were
the key obtained, it would look up the live table and synthesize one
`DICT_CONTAINS` guard with `invert = not has_key`. -/
def PythonSysModulesVariable.contains_helper (st : Tx)
    (self : PythonSysModulesVariable) (key : VT) :
    Except DynErr (NKey × Bool × List Guard) := do
  let k ← get_key_missing_arg key
  let has_key := (st.sysModules.lookup k).isSome
  let guard := Guard.dictContains k (!has_key)
  pure (k, has_key, self.guards ++ [guard])

/-- Embeds `PythonSysModulesVariable.call_contains` (lines 675-680). -/
def PythonSysModulesVariable.call_contains (st : Tx)
    (self : PythonSysModulesVariable) (key : VT) : Except DynErr VT := do
  let r ← PythonSysModulesVariable.contains_helper st self key
  pure { id := 0, kind := .constant (.bool r.2.1) .other,
         mutable_local := Option.none, recursively_contains := [],
         guards := r.2.2 }

/-- Modelled from the spec: `VariableBuilder(tx, GetItemSource(...))
(sys.modules[k])`, the generic value-wrapping entry point building a
fresh child variable from the live module (spec section 4.7); the
builder lives outside `src/`.  Unreachable under the `TypeError` of
`contains_helper`. -/
def wrapLiveModule (st : Tx) (k : NKey) : VT :=
  { id := (st.sysModules.lookup k).getD 0, kind := .other Option.none,
    mutable_local := Option.none, recursively_contains := [], guards := [] }

/-- Embeds `PythonSysModulesVariable.call_get` (lines 682-700). -/
def PythonSysModulesVariable.call_get (st : Tx)
    (self : PythonSysModulesVariable) (key : VT) (default : Option VT) :
    Except DynErr VT := do
  let r ← PythonSysModulesVariable.contains_helper st self key
  if r.2.1 then
    pure ((wrapLiveModule st r.1).add_guards r.2.2)
  else
    match default with
    | some d => pure (d.add_guards r.2.2)
    | Option.none =>
      pure { id := 0, kind := .constant .none .other,
             mutable_local := Option.none, recursively_contains := [],
             guards := r.2.2 }

/-- Embeds `PythonSysModulesVariable.call_getitem` (lines 702-711). -/
def PythonSysModulesVariable.call_getitem (st : Tx)
    (self : PythonSysModulesVariable) (key : VT) : Except DynErr VT := do
  let r ← PythonSysModulesVariable.contains_helper st self key
  pure ((wrapLiveModule st r.1).add_guards r.2.2)

/-- Embeds `True` exactly when a `call_method` result is the `unimplemented`
trace-abort signal. -/
def resultIsUnimplemented (e : Except DynErr (Res × Tx)) : Bool :=
  match e with
  | .error err => err.isUnimplemented
  | .ok _ => false

deriving instance DecidableEq for Except

/-! ## Shared concrete fixtures for witnesses and counterexamples -/

/-- A tracer state with fresh-identity counter 100, module `"alpha"`
registered in the live `sys.modules` table (and `"beta"` absent). -/
def exTx : Tx :=
  { nextId := 100, factoryCalls := 0, substitutions := [],
    globalWeakrefs := [], dictKeys := [],
    nnModules := [], sysModules := [(.const (.str "alpha"), 1)] }

/-- A constant string-key variable. -/
def strKey (s : String) : VT :=
  { id := 1, kind := .constant (.str s) .other,
    mutable_local := Option.none, recursively_contains := [], guards := [] }

/-- A constant integer value variable. -/
def intVal (n : Int) : VT :=
  { id := 2, kind := .constant (.int n) .other,
    mutable_local := Option.none, recursively_contains := [], guards := [] }

/-- A mutable non-constant child variable with `mutable_local` token 5. -/
def mutChild : VT :=
  { id := 3, kind := .other Option.none, mutable_local := some 5,
    recursively_contains := [], guards := [] }

/-- The mutable dict variable `{"x": 1}` (identity 0, token 4). -/
def exDictMut : ConstDictVariable :=
  { id := 0, items := [(.const (.str "x"), intVal 1)], user_cls := .dict,
    mutable_local := some 4, recursively_contains := [], guards := [],
    default_factory := Option.none }

/-- The same dict without a mutability token. -/
def exDictImm : ConstDictVariable :=
  { exDictMut with mutable_local := Option.none }

/-- A mutable dict variable `{"x": mutChild}` whose
`recursively_contains` holds the child's token 5. -/
def exDictWithMutChild : ConstDictVariable :=
  { id := 0, items := [(.const (.str "x"), mutChild)], user_cls := .dict,
    mutable_local := some 4, recursively_contains := [5], guards := [],
    default_factory := Option.none }

/-- A mutable default-factory dict variable `defaultdict(factory, {"x": 1})`
whose factory template is `mutChild`. -/
def exDefaultDict : ConstDictVariable :=
  { id := 0, items := [(.const (.str "x"), intVal 1)],
    user_cls := .defaultdict, mutable_local := some 4,
    recursively_contains := [], guards := [],
    default_factory := some mutChild }

/-- The same default-factory dict with no factory configured. -/
def exDefaultDictNoFactory : ConstDictVariable :=
  { exDefaultDict with default_factory := Option.none }

/-- A special host-table variable over the live `sys.modules` table. -/
def exSysModules : PythonSysModulesVariable := { id := 50, guards := [] }

/-! ## Helper lemmas about the ordered-dict operations -/

lemma get_key_only_nnModules (st1 st2 : Tx)
    (h : st1.nnModules = st2.nnModules) (a : VT) :
    ConstDictVariable.get_key st1 a = ConstDictVariable.get_key st2 a := by
  unfold ConstDictVariable.get_key
  rw [h]

lemma lookup_cons_ite (a k : NKey) (b : VT) (es : List (NKey × VT)) :
    List.lookup a ((k, b) :: es) = if a = k then some b else es.lookup a := by
  by_cases h : a = k
  · rw [List.lookup, if_pos h, beq_iff_eq.mpr h]
  · rw [List.lookup, if_neg h, beq_eq_false_iff_ne.mpr h]

lemma lookup_overwrite_self (l : List (NKey × VT)) (k : NKey) (v : VT) :
    ((l.map fun p => if p.1 = k then (k, v) else p).lookup k) =
      if (l.lookup k).isSome then some v else Option.none := by
  induction l with
  | nil => simp
  | cons p t ih =>
    obtain ⟨a, b⟩ := p
    by_cases h : a = k
    · simp only [List.map_cons, if_pos h]
      rw [lookup_cons_ite, lookup_cons_ite, if_pos rfl, if_pos h.symm]
      simp
    · have hka : ¬ k = a := fun hk => h hk.symm
      simp only [List.map_cons, if_neg h]
      rw [lookup_cons_ite, lookup_cons_ite, if_neg hka, if_neg hka]
      exact ih

lemma lookup_overwrite_ne (l : List (NKey × VT)) (k j : NKey) (v : VT)
    (h : j ≠ k) :
    ((l.map fun p => if p.1 = k then (k, v) else p).lookup j) =
      l.lookup j := by
  induction l with
  | nil => simp
  | cons p t ih =>
    obtain ⟨a, b⟩ := p
    by_cases hp : a = k
    · simp only [List.map_cons, if_pos hp]
      rw [lookup_cons_ite, lookup_cons_ite, if_neg h, if_neg (hp ▸ h), ih]
    · simp only [List.map_cons, if_neg hp]
      rw [lookup_cons_ite, lookup_cons_ite, ih]

lemma lookup_append_single_self (l : List (NKey × VT)) (k : NKey) (v : VT)
    (h : l.lookup k = Option.none) :
    (l ++ [(k, v)]).lookup k = some v := by
  induction l with
  | nil => simp [lookup_cons_ite]
  | cons p t ih =>
    obtain ⟨a, b⟩ := p
    rw [lookup_cons_ite] at h
    by_cases hp : k = a
    · rw [if_pos hp] at h; exact absurd h (by simp)
    · rw [if_neg hp] at h
      rw [List.cons_append, lookup_cons_ite, if_neg hp, ih h]

lemma lookup_append_single_ne (l : List (NKey × VT)) (k j : NKey) (v : VT)
    (h : j ≠ k) :
    (l ++ [(k, v)]).lookup j = l.lookup j := by
  induction l with
  | nil => simp [lookup_cons_ite, h]
  | cons p t ih =>
    obtain ⟨a, b⟩ := p
    rw [List.cons_append, lookup_cons_ite, lookup_cons_ite, ih]

lemma odictInsert_lookup_self (l : List (NKey × VT)) (k : NKey) (v : VT) :
    (odictInsert l k v).lookup k = some v := by
  unfold odictInsert
  by_cases h : (l.lookup k).isSome
  · simp [h, lookup_overwrite_self]
  · simp only [h, if_neg, Bool.false_eq_true, if_false]
    exact lookup_append_single_self l k v (by
      cases hl : l.lookup k with
      | none => rfl
      | some w => rw [hl] at h; simp at h)

lemma odictInsert_lookup_ne (l : List (NKey × VT)) (k j : NKey) (v : VT)
    (h : j ≠ k) :
    (odictInsert l k v).lookup j = l.lookup j := by
  unfold odictInsert
  by_cases hs : (l.lookup k).isSome
  · simp [hs, lookup_overwrite_ne _ _ _ _ h]
  · simp [hs, lookup_append_single_ne _ _ _ _ h]

/-! ## Claim theorems -/

/-- C4: for every symbolic value `x`, `is_valid_key(x)` is true exactly
when key normalization `get_key(x)` succeeds. -/
theorem C4_is_valid_key_iff_get_key_succeeds (st : Tx) (v : VT) :
    ConstDictVariable.is_valid_key v = true ↔
      (ConstDictVariable.get_key st v).isSome = true := by
  unfold ConstDictVariable.is_valid_key ConstDictVariable.get_key
  cases h : v.kind with
  | tensor sv =>
    cases sv <;>
      simp [VTKind.is_python_constant, VTKind.as_python_constant]
  | constant c ty =>
    simp [VTKind.is_python_constant, VTKind.as_python_constant]
  | nnModule m =>
    simp [VTKind.is_python_constant, VTKind.as_python_constant]
  | other c =>
    cases c <;>
      simp [VTKind.is_python_constant, VTKind.as_python_constant]

/-- C1: `__setitem__` on a mutable dict variable returns a brand-new
variable `v2` (fresh identity, so a different instance than `v`, whose
own items the purely functional copy never touches), with the value `x`
at the normalized key and every other key mapped as in `v`; `v2` is
registered as the replacement of `v`. -/
theorem C1_setitem_copy_on_write (st : Tx) (v : ConstDictVariable)
    (k x : VT) (nk : NKey)
    (hval : ConstDictVariable.is_valid_key k = true)
    (hkey : ConstDictVariable.get_key st k = some nk)
    (hmut : v.mutable_local.isSome = true)
    (hid : v.id < st.nextId) :
    ∃ v2 st2,
      ConstDictVariable.call_method st v "__setitem__" [.vt k, .vt x] [] =
        .ok (.dict v2, st2)
      ∧ v2.id ≠ v.id
      ∧ v2.items.lookup nk = some x
      ∧ (∀ j, j ≠ nk → v2.items.lookup j = v.items.lookup j)
      ∧ st2.substitutions = (v.id, v2) :: st.substitutions := by
  unfold ConstDictVariable.call_method
  simp only [firstArgValidKey, hval, hmut, Bool.and_self, if_pos,
    List.length_cons, List.length_nil, List.isEmpty_nil, Bool.true_and,
    hkey]
  by_cases hg : is_valid_global_ref_key nk <;>
    simp only [hg, if_pos, if_neg, Bool.false_eq_true, if_false, if_true,
      Tx.store_global_weakref, ConstDictVariable.modifed, Tx.replace_all] <;>
    refine ⟨_, _, rfl, by simp; omega, odictInsert_lookup_self _ _ _,
      fun j hj => odictInsert_lookup_ne _ _ _ _ hj, rfl⟩

theorem C1_setitem_copy_on_write_witness :
    (ConstDictVariable.is_valid_key (strKey "y") = true
      ∧ ConstDictVariable.get_key exTx (strKey "y") =
          some (.const (.str "y"))
      ∧ exDictMut.mutable_local.isSome = true
      ∧ exDictMut.id < exTx.nextId)
    ∧ (∃ v2 st2,
        ConstDictVariable.call_method exTx exDictMut "__setitem__"
            [.vt (strKey "y"), .vt (intVal 7)] [] =
          .ok (.dict v2, st2)
        ∧ v2.id ≠ exDictMut.id
        ∧ v2.items.lookup (.const (.str "y")) = some (intVal 7)
        ∧ (∀ j, j ≠ NKey.const (.str "y") →
            v2.items.lookup j = exDictMut.items.lookup j)
        ∧ st2.substitutions = (exDictMut.id, v2) :: exTx.substitutions) :=
  ⟨⟨by decide, by decide, by decide, by decide⟩,
    C1_setitem_copy_on_write exTx exDictMut (strKey "y") (intVal 7)
      (.const (.str "y")) (by decide) (by decide) (by decide) (by decide)⟩

/-- C2 counterexample: a dict variable with no `mutable_local` accepts
the mutating `__setitem__` (the second `__setitem__` branch, lines
206-225, installs a fresh `MutableLocal` and performs the insertion)
instead of raising the unsupported-operation signal the claim
requires for every mutating call on an immutable variable. -/
theorem C2_counterexample :
    exDictImm.mutable_local = Option.none
    ∧ resultIsUnimplemented (ConstDictVariable.call_method exTx exDictImm
        "__setitem__" [.vt (strKey "y"), .vt (intVal 7)] []) = false
    ∧ (ConstDictVariable.call_method exTx exDictImm "__setitem__"
        [.vt (strKey "y"), .vt (intVal 7)] []).isOk = true := by
  decide

/-- C2 amended: on a dict variable without a mutability token, `pop`
with a present key and `update` fall through to the generic
unsupported-operation signal, but `__setitem__` with a normalizable key
instead succeeds — it installs a fresh mutability token on the existing
instance and returns a brand-new copied instance; on a mutable
variable, `__setitem__`, `pop` (present key) and `update` each produce
a brand-new variable instance (fresh identity; the old instance is
superseded via the substitution record, not mutated). -/
theorem C2_amended_mutation_protocol
    (st : Tx) (v other : ConstDictVariable) (k x : VT) (nk : NKey)
    (hval : ConstDictVariable.is_valid_key k = true)
    (hkey : ConstDictVariable.get_key st k = some nk)
    (hmem : (v.items.lookup nk).isSome = true)
    (hid : v.id < st.nextId) :
    (v.mutable_local = Option.none →
      resultIsUnimplemented
          (ConstDictVariable.call_method st v "pop" [.vt k] []) = true
      ∧ resultIsUnimplemented
          (ConstDictVariable.call_method st v "update" [.dict other] [])
          = true
      ∧ ∃ v2 st2,
          ConstDictVariable.call_method st v "__setitem__"
              [.vt k, .vt x] [] = .ok (.dict v2, st2)
          ∧ v2.id ≠ v.id ∧ v2.mutable_local.isSome = true)
    ∧ (v.mutable_local.isSome = true →
      (∃ v2 st2,
          ConstDictVariable.call_method st v "__setitem__"
              [.vt k, .vt x] [] = .ok (.dict v2, st2) ∧ v2.id ≠ v.id)
      ∧ (∃ r v2 st2,
          ConstDictVariable.call_method st v "pop" [.vt k] [] =
            .ok (.vt r, st2)
          ∧ st2.substitutions = (v.id, v2) :: st.substitutions
          ∧ v2.id ≠ v.id)
      ∧ (∃ v2 st2,
          ConstDictVariable.call_method st v "update" [.dict other] [] =
            .ok (.dict v2, st2) ∧ v2.id ≠ v.id)) := by
  constructor
  · intro himm
    have himm' : v.mutable_local.isSome = false := by rw [himm]; rfl
    refine ⟨?_, ?_, ?_⟩
    · unfold ConstDictVariable.call_method
      simp [firstArgValidKey, hval, firstArgKeyAbsent, hkey, hmem, himm',
        callMethodFallback, resultIsUnimplemented, DynErr.isUnimplemented]
    · unfold ConstDictVariable.call_method
      simp [himm', callMethodFallback, resultIsUnimplemented,
        DynErr.isUnimplemented]
    · unfold ConstDictVariable.call_method
      simp only [firstArgValidKey, hval, himm', Bool.and_false,
        Bool.true_and, Bool.false_eq_true, if_false, if_true,
        List.isEmpty_nil, List.length_cons, List.length_nil,
        Tx.freshToken]
      have hkey2 : ConstDictVariable.get_key
          { st with nextId := st.nextId + 1 } k = some nk := hkey
      simp only [hkey2]
      by_cases hg : is_valid_global_ref_key nk <;>
        simp only [hg, Bool.false_eq_true, if_false, if_true,
          Tx.store_dict_key, ConstDictVariable.modifed, Tx.replace_all] <;>
        exact ⟨_, _, rfl, by simp; omega, rfl⟩
  · intro hmut
    refine ⟨?_, ?_, ?_⟩
    · unfold ConstDictVariable.call_method
      simp only [firstArgValidKey, hval, hmut, Bool.and_self, if_pos,
        List.length_cons, List.length_nil, List.isEmpty_nil,
        Bool.true_and, hkey]
      by_cases hg : is_valid_global_ref_key nk <;>
        simp only [hg, Bool.false_eq_true, if_false, if_true,
          Tx.store_global_weakref, ConstDictVariable.modifed,
          Tx.replace_all] <;>
        exact ⟨_, _, rfl, by simp; omega⟩
    · unfold ConstDictVariable.call_method
      have habs : firstArgKeyAbsent st v [.vt k] = false := by
        simp [firstArgKeyAbsent, hkey, hmem]
      simp only [firstArgValidKey, hval, hmut, habs, Bool.and_self,
        Bool.true_and, Bool.and_false, Bool.false_and,
        Bool.false_eq_true, if_false, if_true, List.length_cons,
        List.length_nil, hkey]
      cases hv : v.items.lookup nk with
      | none => rw [hv] at hmem; simp at hmem
      | some r =>
        simp only [hv, ConstDictVariable.modifed, Tx.replace_all]
        exact ⟨_, _, _, rfl, rfl, by simp; omega⟩
    · unfold ConstDictVariable.call_method
      simp only [hmut, if_true, ConstDictVariable.modifed, Tx.replace_all]
      exact ⟨_, _, rfl, by simp; omega⟩

theorem C2_amended_mutation_protocol_witness :
    (ConstDictVariable.is_valid_key (strKey "x") = true
      ∧ ConstDictVariable.get_key exTx (strKey "x") =
          some (.const (.str "x"))
      ∧ (exDictMut.items.lookup (.const (.str "x"))).isSome = true
      ∧ exDictMut.id < exTx.nextId)
    ∧ ((exDictMut.mutable_local = Option.none →
      resultIsUnimplemented
          (ConstDictVariable.call_method exTx exDictMut "pop"
            [.vt (strKey "x")] []) = true
      ∧ resultIsUnimplemented
          (ConstDictVariable.call_method exTx exDictMut "update"
            [.dict exDictImm] []) = true
      ∧ ∃ v2 st2,
          ConstDictVariable.call_method exTx exDictMut "__setitem__"
              [.vt (strKey "x"), .vt (intVal 7)] [] = .ok (.dict v2, st2)
          ∧ v2.id ≠ exDictMut.id ∧ v2.mutable_local.isSome = true)
    ∧ (exDictMut.mutable_local.isSome = true →
      (∃ v2 st2,
          ConstDictVariable.call_method exTx exDictMut "__setitem__"
              [.vt (strKey "x"), .vt (intVal 7)] [] = .ok (.dict v2, st2)
          ∧ v2.id ≠ exDictMut.id)
      ∧ (∃ r v2 st2,
          ConstDictVariable.call_method exTx exDictMut "pop"
              [.vt (strKey "x")] [] = .ok (.vt r, st2)
          ∧ st2.substitutions = (exDictMut.id, v2) :: exTx.substitutions
          ∧ v2.id ≠ exDictMut.id)
      ∧ (∃ v2 st2,
          ConstDictVariable.call_method exTx exDictMut "update"
              [.dict exDictImm] [] = .ok (.dict v2, st2)
          ∧ v2.id ≠ exDictMut.id))) :=
  ⟨⟨by decide, by decide, by decide, by decide⟩,
    C2_amended_mutation_protocol exTx exDictMut exDictImm (strKey "x")
      (intVal 7) (.const (.str "x")) (by decide) (by decide) (by decide)
      (by decide)⟩

/-- C3 counterexample: popping the only key of `{"x": mutChild}` — a
mutating operation in the claim's list — registers a derived variable
whose `recursively_contains` was recomputed from the (now empty)
remaining items (`modifed(newval, None)`, line 169) and so lost token
5, which the original variable's set holds: the derived set is not a
superset of the original's. -/
theorem C3_counterexample :
    exDictWithMutChild.recursively_contains.contains 5 = true
    ∧ ((ConstDictVariable.call_method exTx exDictWithMutChild "pop"
          [.vt (strKey "x")] []).toOption.bind
        (fun r => r.2.substitutions.head?)).map
          (fun p => p.2.recursively_contains.contains 5) = some false := by
  decide

/-- C3 amended: for a variable derived by `__setitem__`, `update` or a
default-factory insertion, `recursively_contains` is a superset of the
original's set united with the substituted child's transitive contents
(plus the child's own mutable identity when it has one); for `pop` the
set is instead recomputed from the remaining values only (the `None`
passed at line 169) and may lose tokens of the removed value. -/
theorem C3_recursively_contains_superset
    (st : Tx) (v other : ConstDictVariable) (k x f : VT) (nk : NKey)
    (hval : ConstDictVariable.is_valid_key k = true)
    (hkey : ConstDictVariable.get_key st k = some nk)
    (hmut : v.mutable_local.isSome = true) :
    (∃ v2 st2,
      ConstDictVariable.call_method st v "__setitem__"
          [.vt k, .vt x] [] = .ok (.dict v2, st2)
      ∧ (∀ t, t ∈ v.recursively_contains → t ∈ v2.recursively_contains)
      ∧ (∀ t, t ∈ x.recursively_contains → t ∈ v2.recursively_contains)
      ∧ (∀ t, x.mutable_local = some t → t ∈ v2.recursively_contains))
    ∧ (∃ v2 st2,
      ConstDictVariable.call_method st v "update" [.dict other] [] =
        .ok (.dict v2, st2)
      ∧ (∀ t, t ∈ v.recursively_contains → t ∈ v2.recursively_contains)
      ∧ (∀ t, t ∈ other.recursively_contains →
          t ∈ v2.recursively_contains))
    ∧ (v.default_factory = some f → v.items.lookup nk = Option.none →
      ∃ dv v2 st2,
        DefaultDictVariable.call_method st v "__getitem__" [.vt k] [] =
          .ok (.vt dv, st2)
        ∧ st2.substitutions = (v.id, v2) :: st.substitutions
        ∧ (∀ t, t ∈ v.recursively_contains → t ∈ v2.recursively_contains)
        ∧ (∀ t, t ∈ dv.recursively_contains →
            t ∈ v2.recursively_contains)
        ∧ (∀ t, dv.mutable_local = some t → t ∈ v2.recursively_contains))
    ∧ ((v.items.lookup nk).isSome = true →
      ∃ r v2 st2,
        ConstDictVariable.call_method st v "pop" [.vt k] [] =
          .ok (.vt r, st2)
        ∧ st2.substitutions = (v.id, v2) :: st.substitutions
        ∧ v2.recursively_contains =
            recompute_rc (odictRemove v.items nk)) := by
  refine ⟨?_, ?_, ?_, ?_⟩
  · unfold ConstDictVariable.call_method
    simp only [firstArgValidKey, hval, hmut, Bool.and_self, if_pos,
      List.length_cons, List.length_nil, List.isEmpty_nil, Bool.true_and,
      hkey]
    by_cases hg : is_valid_global_ref_key nk <;>
      simp only [hg, Bool.false_eq_true, if_false, if_true,
        Tx.store_global_weakref, ConstDictVariable.modifed,
        Tx.replace_all] <;>
      refine ⟨_, _, rfl, ?_, ?_, ?_⟩ <;>
        exact fun t ht => by simp [List.mem_append]; tauto
  · unfold ConstDictVariable.call_method
    simp only [hmut, if_true, ConstDictVariable.modifed, Tx.replace_all]
    refine ⟨_, _, rfl, ?_, ?_⟩ <;>
      exact fun t ht => by simp [List.mem_append]; tauto
  · intro hf habsent
    unfold DefaultDictVariable.call_method
    simp only [hkey, habsent, Option.isSome_none, Bool.false_eq_true,
      if_false, hf]
    by_cases hg : is_valid_global_ref_key nk <;>
      simp only [hg, Bool.false_eq_true, if_false, if_true,
        Tx.store_global_weakref, Tx.callFactory,
        ConstDictVariable.modifed, Tx.replace_all] <;>
      refine ⟨_, _, _, rfl, rfl, ?_, ?_, ?_⟩ <;>
        exact fun t ht => by simp [List.mem_append]; tauto
  · intro hmem
    unfold ConstDictVariable.call_method
    have habs : firstArgKeyAbsent st v [.vt k] = false := by
      simp [firstArgKeyAbsent, hkey, hmem]
    simp only [firstArgValidKey, hval, hmut, habs, Bool.and_self,
      Bool.true_and, Bool.and_false, Bool.false_and, Bool.false_eq_true,
      if_false, if_true, List.length_cons, List.length_nil, hkey]
    cases hv : v.items.lookup nk with
    | none => rw [hv] at hmem; simp at hmem
    | some r =>
      simp only [hv, ConstDictVariable.modifed, Tx.replace_all]
      exact ⟨_, _, _, rfl, rfl, rfl⟩

theorem C3_recursively_contains_superset_witness :
    (ConstDictVariable.is_valid_key (strKey "x") = true
      ∧ ConstDictVariable.get_key exTx (strKey "x") =
          some (.const (.str "x"))
      ∧ exDictWithMutChild.mutable_local.isSome = true)
    ∧ ((∃ v2 st2,
      ConstDictVariable.call_method exTx exDictWithMutChild "__setitem__"
          [.vt (strKey "x"), .vt mutChild] [] = .ok (.dict v2, st2)
      ∧ (∀ t, t ∈ exDictWithMutChild.recursively_contains →
          t ∈ v2.recursively_contains)
      ∧ (∀ t, t ∈ mutChild.recursively_contains →
          t ∈ v2.recursively_contains)
      ∧ (∀ t, mutChild.mutable_local = some t →
          t ∈ v2.recursively_contains))
    ∧ (∃ v2 st2,
      ConstDictVariable.call_method exTx exDictWithMutChild "update"
          [.dict exDictImm] [] = .ok (.dict v2, st2)
      ∧ (∀ t, t ∈ exDictWithMutChild.recursively_contains →
          t ∈ v2.recursively_contains)
      ∧ (∀ t, t ∈ exDictImm.recursively_contains →
          t ∈ v2.recursively_contains))
    ∧ (exDictWithMutChild.default_factory = some mutChild →
        exDictWithMutChild.items.lookup (.const (.str "x")) =
          Option.none →
      ∃ dv v2 st2,
        DefaultDictVariable.call_method exTx exDictWithMutChild
            "__getitem__" [.vt (strKey "x")] [] = .ok (.vt dv, st2)
        ∧ st2.substitutions =
            (exDictWithMutChild.id, v2) :: exTx.substitutions
        ∧ (∀ t, t ∈ exDictWithMutChild.recursively_contains →
            t ∈ v2.recursively_contains)
        ∧ (∀ t, t ∈ dv.recursively_contains →
            t ∈ v2.recursively_contains)
        ∧ (∀ t, dv.mutable_local = some t →
            t ∈ v2.recursively_contains))
    ∧ ((exDictWithMutChild.items.lookup
          (.const (.str "x"))).isSome = true →
      ∃ r v2 st2,
        ConstDictVariable.call_method exTx exDictWithMutChild "pop"
            [.vt (strKey "x")] [] = .ok (.vt r, st2)
        ∧ st2.substitutions =
            (exDictWithMutChild.id, v2) :: exTx.substitutions
        ∧ v2.recursively_contains =
            recompute_rc (odictRemove exDictWithMutChild.items
              (.const (.str "x"))))) :=
  ⟨⟨by decide, by decide, by decide⟩,
    C3_recursively_contains_superset exTx exDictWithMutChild exDictImm
      (strKey "x") mutChild mutChild (.const (.str "x"))
      (by decide) (by decide) (by decide)⟩

lemma defaultdict_getitem_hit (st : Tx) (v : ConstDictVariable)
    (k : VT) (nk : NKey) (dv : VT)
    (hkey : ConstDictVariable.get_key st k = some nk)
    (hmem : v.items.lookup nk = some dv) :
    DefaultDictVariable.call_method st v "__getitem__" [.vt k] [] =
      .ok (.vt (dv.add_guards (v.guards ++ k.guards)), st) := by
  unfold DefaultDictVariable.call_method
  simp [hkey, hmem, ConstDictVariable.getitem_const, Except.map]

/-- C5: on a default-factory dict with a configured factory and a
never-before-seen key, the first `__getitem__` synthesizes a value
`dv` via exactly one factory call and registers a successor `v2` with
the key inserted; a second `__getitem__` of the same key on `v2` takes
the hit path (`getitem_const`), returning the stored value variable
(same identity and payload, guards merged) with the tracer state —
including the factory-call count — unchanged. -/
theorem C5_default_factory_idempotent_on_repeat_miss
    (st : Tx) (v : ConstDictVariable) (k f : VT) (nk : NKey)
    (hkey : ConstDictVariable.get_key st k = some nk)
    (habsent : v.items.lookup nk = Option.none)
    (hf : v.default_factory = some f) :
    ∃ dv v2 st2,
      DefaultDictVariable.call_method st v "__getitem__" [.vt k] [] =
        .ok (.vt dv, st2)
      ∧ st2.substitutions = (v.id, v2) :: st.substitutions
      ∧ v2.items.lookup nk = some dv
      ∧ st2.factoryCalls = st.factoryCalls + 1
      ∧ ∃ r2,
          DefaultDictVariable.call_method st2 v2 "__getitem__"
              [.vt k] [] = .ok (.vt r2, st2)
          ∧ r2.id = dv.id ∧ r2.kind = dv.kind
          ∧ r2.mutable_local = dv.mutable_local := by
  have hhit : ∀ (st2 : Tx) (v2 : ConstDictVariable) (dv : VT),
      st2.nnModules = st.nnModules → v2.items.lookup nk = some dv →
      DefaultDictVariable.call_method st2 v2 "__getitem__" [.vt k] [] =
        .ok (.vt (dv.add_guards (v2.guards ++ k.guards)), st2) :=
    fun st2 v2 dv hn hm =>
      defaultdict_getitem_hit st2 v2 k nk dv
        ((get_key_only_nnModules st2 st hn k).trans hkey) hm
  unfold DefaultDictVariable.call_method
  simp only [hkey, habsent, Option.isSome_none, Bool.false_eq_true,
    if_false, hf]
  by_cases hg : is_valid_global_ref_key nk <;>
    simp only [hg, Bool.false_eq_true, if_false, if_true,
      Tx.store_global_weakref, Tx.callFactory,
      ConstDictVariable.modifed, Tx.replace_all] <;>
  · refine ⟨_, _, _, rfl, rfl, odictInsert_lookup_self _ _ _, rfl, ?_⟩
    exact ⟨_, hhit _ _ _ rfl (odictInsert_lookup_self _ _ _),
      rfl, rfl, rfl⟩

theorem C5_default_factory_idempotent_on_repeat_miss_witness :
    (ConstDictVariable.get_key exTx (strKey "z") =
        some (.const (.str "z"))
      ∧ exDefaultDict.items.lookup (.const (.str "z")) = Option.none
      ∧ exDefaultDict.default_factory = some mutChild)
    ∧ (∃ dv v2 st2,
      DefaultDictVariable.call_method exTx exDefaultDict "__getitem__"
          [.vt (strKey "z")] [] = .ok (.vt dv, st2)
      ∧ st2.substitutions = (exDefaultDict.id, v2) :: exTx.substitutions
      ∧ v2.items.lookup (.const (.str "z")) = some dv
      ∧ st2.factoryCalls = exTx.factoryCalls + 1
      ∧ ∃ r2,
          DefaultDictVariable.call_method st2 v2 "__getitem__"
              [.vt (strKey "z")] [] = .ok (.vt r2, st2)
          ∧ r2.id = dv.id ∧ r2.kind = dv.kind
          ∧ r2.mutable_local = dv.mutable_local) :=
  ⟨⟨by decide, by decide, by decide⟩,
    C5_default_factory_idempotent_on_repeat_miss exTx exDefaultDict
      (strKey "z") mutChild (.const (.str "z"))
      (by decide) (by decide) (by decide)⟩

/-- C6: on a default-factory dict with no factory configured,
`__getitem__` of a key absent from `items` raises the key-error signal
(line 316) — fatal to the trace region, neither swallowed nor converted
into a fabricated result. -/
theorem C6_defaultdict_no_factory_keyerror
    (st : Tx) (v : ConstDictVariable) (k : VT) (nk : NKey)
    (hkey : ConstDictVariable.get_key st k = some nk)
    (habsent : v.items.lookup nk = Option.none)
    (hnof : v.default_factory = Option.none) :
    DefaultDictVariable.call_method st v "__getitem__" [.vt k] [] =
      .error .keyError := by
  unfold DefaultDictVariable.call_method
  simp [hkey, habsent, hnof]

theorem C6_defaultdict_no_factory_keyerror_witness :
    (ConstDictVariable.get_key exTx (strKey "z") =
        some (.const (.str "z"))
      ∧ exDefaultDictNoFactory.items.lookup (.const (.str "z")) =
          Option.none
      ∧ exDefaultDictNoFactory.default_factory = Option.none)
    ∧ DefaultDictVariable.call_method exTx exDefaultDictNoFactory
        "__getitem__" [.vt (strKey "z")] [] = .error .keyError :=
  ⟨⟨by decide, by decide, by decide⟩,
    C6_defaultdict_no_factory_keyerror exTx exDefaultDictNoFactory
      (strKey "z") (.const (.str "z")) (by decide) (by decide)
      (by decide)⟩

/-- C8: `pop(k, default)` on a (mutable) dict variable whose items do
not contain the normalized key returns the default value (with the
propagated guards merged, keeping its identity) and leaves the tracer
state — in particular the substitution record and the fresh-identity
counter — completely untouched: no new mapping variable is created or
registered. -/
theorem C8_pop_missing_with_default
    (st : Tx) (v : ConstDictVariable) (k d : VT) (nk : NKey)
    (hval : ConstDictVariable.is_valid_key k = true)
    (hkey : ConstDictVariable.get_key st k = some nk)
    (habsent : v.items.lookup nk = Option.none)
    (_hmut : v.mutable_local.isSome = true) :
    ConstDictVariable.call_method st v "pop" [.vt k, .vt d] [] =
      .ok (.vt (d.add_guards (optsOf v [.vt k, .vt d] [])), st)
    ∧ (d.add_guards (optsOf v [.vt k, .vt d] [])).id = d.id := by
  have habs : firstArgKeyAbsent st v [Arg.vt k, Arg.vt d] = true := by
    simp [firstArgKeyAbsent, hkey, habsent]
  constructor
  · unfold ConstDictVariable.call_method
    simp [firstArgValidKey, hval, habs, Res.ofArg]
  · rfl

theorem C8_pop_missing_with_default_witness :
    (ConstDictVariable.is_valid_key (strKey "z") = true
      ∧ ConstDictVariable.get_key exTx (strKey "z") =
          some (.const (.str "z"))
      ∧ exDictMut.items.lookup (.const (.str "z")) = Option.none
      ∧ exDictMut.mutable_local.isSome = true)
    ∧ (ConstDictVariable.call_method exTx exDictMut "pop"
          [.vt (strKey "z"), .vt (intVal 7)] [] =
        .ok (.vt ((intVal 7).add_guards
          (optsOf exDictMut [.vt (strKey "z"), .vt (intVal 7)] [])), exTx)
      ∧ ((intVal 7).add_guards
          (optsOf exDictMut [.vt (strKey "z"), .vt (intVal 7)] [])).id =
        (intVal 7).id) :=
  ⟨⟨by decide, by decide, by decide, by decide⟩,
    C8_pop_missing_with_default exTx exDictMut (strKey "z") (intVal 7)
      (.const (.str "z")) (by decide) (by decide) (by decide)
      (by decide)⟩

/-- C9 counterexample: constructing a record over schema `[a, b]` from
arguments `{a: None, b: <non-tensor variable>}` reduces `items` to the
single field `b`; the single-field check then evaluates
`items[keys[0]] = items["a"]`, which raises `KeyError` — another
error, not the unsupported-operation signal the claim requires for
every single-non-tensor-field construction. -/
theorem C9_counterexample :
    DataClassVariable.create ["a", "b"]
        [("a", .raw .none), ("b", .var (intVal 1))] = .error .keyError
    ∧ (match DataClassVariable.create ["a", "b"]
          [("a", .raw .none), ("b", .var (intVal 1))] with
       | .error e => e.isUnimplemented
       | .ok _ => false) = false := by
  decide

/-- C9 amended: record construction signals the unsupported-operation
signal when the bound items reduce to exactly one field, that field is
the *first* schema field, and its value is not a tensor variable; when
the single bound field is a later schema field, the check
`items[keys[0]]` instead fails with a key-missing error. -/
theorem C9_single_nontensor_first_field_unsupported
    (fields : List String) (bound : List (String × BoundVal))
    (k0 : String) (rest : List String) (v : VT)
    (hfields : fields = k0 :: rest)
    (hcover : sameKeySet fields bound = true)
    (hitems : DataClassVariable.buildItems fields bound = .ok [(k0, v)])
    (htensor : v.isTensor = false) :
    DataClassVariable.create fields bound =
      .error (.unimplemented "DataClassVariable iterator constructor") := by
  unfold DataClassVariable.create
  rw [hcover, hitems, hfields]
  simp [bind, Except.bind, List.lookup, htensor, pure, Except.pure,
    throw, throwThe, MonadExceptOf.throw]

theorem C9_single_nontensor_first_field_unsupported_witness :
    (["a"] = "a" :: ([] : List String)
      ∧ sameKeySet ["a"] [("a", .var (intVal 1))] = true
      ∧ DataClassVariable.buildItems ["a"] [("a", .var (intVal 1))] =
          .ok [("a", intVal 1)]
      ∧ (intVal 1).isTensor = false)
    ∧ DataClassVariable.create ["a"] [("a", .var (intVal 1))] =
        .error (.unimplemented "DataClassVariable iterator constructor") :=
  ⟨⟨rfl, by decide, by decide, by decide⟩,
    C9_single_nontensor_first_field_unsupported ["a"]
      [("a", .var (intVal 1))] "a" [] (intVal 1) rfl (by decide)
      (by decide) (by decide)⟩

/-- C7: over a live table containing `"alpha"` and not `"beta"`,
`call_contains` raises `TypeError` for both keys instead of returning
the constant true/false with one membership guard: `_contains_helper`
(line 667) invokes the classmethod `ConstDictVariable.get_key(key)`
without its `tx` argument, so Python reports a missing positional
argument before any guard is synthesized.  This exhibits the code bug
underlying the claim. -/
theorem C7_call_contains_raises_typeerror :
    (exTx.sysModules.lookup (.const (.str "alpha"))).isSome = true
    ∧ (exTx.sysModules.lookup (.const (.str "beta"))).isSome = false
    ∧ PythonSysModulesVariable.call_contains exTx exSysModules
        (strKey "alpha") = .error .typeError
    ∧ PythonSysModulesVariable.call_contains exTx exSysModules
        (strKey "beta") = .error .typeError := by
  decide

/-- C10: `call_get` of a key absent from the live table with no default
raises `TypeError` instead of returning the constant `None` with the
absence guard: it reaches the live table through the same broken
one-argument `get_key` call in `_contains_helper` (line 667).  This
exhibits the code bug underlying the claim. -/
theorem C10_call_get_missing_raises_typeerror :
    (exTx.sysModules.lookup (.const (.str "ghost"))).isSome = false
    ∧ PythonSysModulesVariable.call_get exTx exSysModules
        (strKey "ghost") Option.none = .error .typeError := by
  decide
